import Mathlib

/-!
Verification of the seeker_server media-production pipeline.

The four pipeline entry points of the repository are shallowly embedded as
pure Lean functions over an explicit environment describing the outcomes of
every external collaborator call (generative service responses, ffmpeg exit
status, object-store upload results, filesystem state).  Each run function
returns a trace record: the ordered status writes issued to the metadata
store, the number of uploads, scratch-directory effects, and per-stage call
counts.  `JSON.parse` is modelled as an environment-supplied partial
function (returning `none` exactly when parsing throws); the supabase
storage `upload` call is modelled as resolving with a success-or-error
result value (the supabase-js v2 client returns `{data, error}` rather than
rejecting), which the embedded code discards exactly where the source does.
-/

namespace Seeker

/-! ## Common data -/

/-- Status values the pipelines write to the per-kind status column of the
`lessons` table (`video_status`, `podcast_status`, `comic_status`,
`animated_video_status`). -/
inductive Status where
  | processing
  | ready
  | failed
deriving DecidableEq

/-- Result of a supabase storage upload: the call resolves with either data
or an error value; it does not reject. -/
inductive UploadOutcome where
  | ok
  | err
deriving DecidableEq

/-- The backquote character, used by the markdown fence stripper. -/
def btick : Char := Char.ofNat 96

/-- Model of the JS global replace of the regex alternation matching a
fenced code marker: at each position the seven-character fence-with-language
marker is tried first, then the bare three-character fence; matches are
deleted, everything else is kept. -/
def stripFencesAux : Nat → List Char → List Char
  | 0, cs => cs
  | _, [] => []
  | fuel + 1, c1 :: t1 =>
    if c1 = btick then
      match t1 with
      | c2 :: c3 :: t3 =>
        if c2 = btick ∧ c3 = btick then
          match t3 with
          | c4 :: c5 :: c6 :: c7 :: t7 =>
            if c4 = 'j' ∧ c5 = 's' ∧ c6 = 'o' ∧ c7 = 'n' then stripFencesAux fuel t7
            else stripFencesAux fuel t3
          | _ => stripFencesAux fuel t3
        else c1 :: stripFencesAux fuel t1
      | _ => c1 :: stripFencesAux fuel t1
    else c1 :: stripFencesAux fuel t1

/-- Strip markdown code fences from a generative-service response text.
Every step consumes at least one character, so a fuel equal to the input
length always suffices. -/
def stripFences (s : String) : String := ⟨stripFencesAux s.data.length s.data⟩

/-- Model of JS `String.prototype.trim`: drop whitespace from both ends. -/
def jsTrim (s : String) : String :=
  ⟨((s.data.dropWhile Char.isWhitespace).reverse.dropWhile Char.isWhitespace).reverse⟩

/-! ## Slideshow pipeline (`SlidesService.createVideo`) -/

/-- One entry of the slideshow manifest, as parsed from the structured
generation call. -/
structure Slide where
  title : String
  bullets : List String
  image_prompt : String
  narration : String
deriving DecidableEq

/-- A character the sanitizer keeps: ASCII alphanumeric or space
(the JS regex character class used in the source). -/
def safeChar (c : Char) : Bool := c.isAlphanum || c == ' '

/-- Sanitize one character: characters outside the safe class are replaced
by a space. -/
def cleanChar (c : Char) : Char := if safeChar c then c else ' '

/-- Sanitize a title or bullet string before it is inserted into the
drawtext filter (the per-character regex replace of the source). -/
def cleanText (s : String) : String := ⟨s.data.map cleanChar⟩

/-- A character that corrupts an ffmpeg filter graph when unescaped:
single quote, double quote, colon, or square bracket. -/
def filterBreaking (c : Char) : Bool :=
  c == Char.ofNat 39 || c == Char.ofNat 34 || c == ':' || c == '[' || c == ']'

/-- The single-quote character as a string, for building filter text. -/
def sq : String := "\x27"

/-- The drawtext text payload used for the slide title. -/
def titleTextField (title : String) : String := cleanText title

/-- The drawtext text payload used for one bullet: the fixed bullet-glyph
prefix from the code template followed by the sanitized bullet string. -/
def bulletTextField (b : String) : String := "• " ++ cleanText b

/-- The drawtext filter fragment for the slide title. -/
def drawtextTitle (font : String) (title : String) : String :=
  "drawtext=fontfile=" ++ font ++ ":text=" ++ sq ++ titleTextField title ++ sq ++
    ":x=100:y=150:fontsize=65:fontcolor=0x22c55e"

/-- The drawtext filter fragment appended for the bullet at index `idx`. -/
def drawtextBullet (font : String) (idx : Nat) (b : String) : String :=
  ",drawtext=fontfile=" ++ font ++ ":text=" ++ sq ++ bulletTextField b ++ sq ++
    ":x=100:y=" ++ toString (350 + idx * 80) ++ ":fontsize=36:fontcolor=white"

/-- Accumulate the bullet drawtext fragments in order. -/
def drawtextBullets (font : String) : Nat → List String → String
  | _, [] => ""
  | idx, b :: rest => drawtextBullet font idx b ++ drawtextBullets font (idx + 1) rest

/-- The full drawtext filter chain for one slide. -/
def drawtextFilters (font : String) (s : Slide) : String :=
  drawtextTitle font s.title ++ drawtextBullets font 0 s.bullets

/-- The complete complex filter for one slide render. -/
def filterComplex (font : String) (s : Slide) : String :=
  "[0:v]scale=960:960:force_original_aspect_ratio=increase,crop=960:960[scaled];" ++
    "color=s=1920x1080:c=0x062012[bg];[bg][scaled]overlay=900:60," ++
    drawtextFilters font s ++ "[outv]"

/-- The ordered candidate system font paths of `getSystemFont`. -/
def fontPaths : List String :=
  ["/usr/share/fonts/truetype/liberation/LiberationSans-Bold.ttf",
   "/usr/share/fonts/truetype/dejavu/DejaVuSans-Bold.ttf",
   "/System/Library/Fonts/Supplemental/Arial Bold.ttf"]

/-- Resolve the render font: first existing candidate path wins, otherwise
the named default face. -/
def getSystemFont (fsExists : String → Bool) : String :=
  match fontPaths.find? fsExists with
  | some p => p
  | none => "Arial"

/-- The string handed to `JSON.parse` for the slideshow manifest: the
response text with fences stripped, or the literal `"[]"` when the response
carries no text part or strips to the empty string (the `|| "[]"` default
of the source; no trim here). -/
def manifestSource (respText : Option String) : String :=
  match respText with
  | none => "[]"
  | some t => let s := stripFences t; if s = "" then "[]" else s

/-- Environment of one `createVideo` run: the outcome of every external
call it makes, in source order. -/
structure SlidesEnv where
  /-- Whether each candidate font path exists on disk. -/
  fsExists : String → Bool
  /-- Whether `temp/<lessonId>` already exists when the run starts. -/
  tempDirExists : Bool
  /-- Text part of the structured manifest response (`none` = absent). -/
  scriptText : Option String
  /-- `JSON.parse` on the manifest source string; `none` = parse throws. -/
  parseManifest : String → Option (List Slide)
  /-- Inline image payload for slide `i` (`none` = missing). -/
  imgB64 : Nat → Option String
  /-- Inline audio payload for slide `i` (`none` = missing). -/
  audioB64 : Nat → Option String
  /-- Whether the PCM-to-WAV ffmpeg conversion for slide `i` succeeds. -/
  audioConvertOk : Nat → Bool
  /-- Whether the slide-render ffmpeg invocation for slide `i` succeeds. -/
  renderOk : Nat → Bool
  /-- Whether the final merge/stitch ffmpeg invocation succeeds. -/
  stitchOk : Bool
  /-- Result of the final object-store upload. -/
  upload : UploadOutcome

/-- Trace of one `createVideo` call. -/
structure SlidesRun where
  /-- Writes to `video_status`, in order. -/
  statusWrites : List Status
  /-- Whether a pre-existing scratch directory was removed on acquire. -/
  staleCleared : Bool
  /-- Number of slides fully rendered. -/
  slidesRendered : Nat
  /-- Whether the stitch step was started. -/
  stitchAttempted : Bool
  /-- Results of the object-store uploads that were issued. -/
  uploads : List UploadOutcome
  /-- Whether the scratch directory was removed by the end of the run. -/
  scratchRemoved : Bool
  /-- The in-memory dedup set after the call settles. -/
  queueAfter : List String
deriving DecidableEq

/-- The per-slide asset/render loop: returns the number of slides rendered
before a failure and whether the whole loop succeeded.  A missing image or
audio payload, a failed PCM conversion, or a failed render throws. -/
def renderSlides (env : SlidesEnv) : Nat → List Slide → Nat × Bool
  | _, [] => (0, true)
  | i, _ :: rest =>
    if (env.imgB64 i).isNone ∨ (env.audioB64 i).isNone then (0, false)
    else if env.audioConvertOk i then
      if env.renderOk i then
        let out := renderSlides env (i + 1) rest
        (out.1 + 1, out.2)
      else (0, false)
    else (0, false)

/-- Model of `SlidesService.createVideo`.  The dedup check against the
in-memory set happens first; acquiring scratch clears any pre-existing
directory; stage errors up to the render loop are awaited inside the `try`
and reach the `catch` (which writes `failed`, removes the dedup marker and
deliberately keeps the scratch directory); the stitch is only initiated
inside the `try` — its error handler throws inside an ffmpeg event
callback, so a stitch failure reaches neither the `catch` nor any cleanup;
the success callback uploads (discarding the upload result), writes
`ready`, removes scratch and clears the marker. -/
def createVideo (env : SlidesEnv) (lessonId : String) (queue : List String) : SlidesRun :=
  if lessonId ∈ queue then
    { statusWrites := [], staleCleared := false, slidesRendered := 0,
      stitchAttempted := false, uploads := [], scratchRemoved := false,
      queueAfter := queue }
  else
    match env.parseManifest (manifestSource env.scriptText) with
    | none =>
      { statusWrites := [.processing, .failed], staleCleared := env.tempDirExists,
        slidesRendered := 0, stitchAttempted := false, uploads := [],
        scratchRemoved := false, queueAfter := (lessonId :: queue).erase lessonId }
    | some manifest =>
      if (renderSlides env 0 manifest).2 then
        if env.stitchOk then
          { statusWrites := [.processing, .ready], staleCleared := env.tempDirExists,
            slidesRendered := (renderSlides env 0 manifest).1, stitchAttempted := true,
            uploads := [env.upload], scratchRemoved := true,
            queueAfter := (lessonId :: queue).erase lessonId }
        else
          { statusWrites := [.processing], staleCleared := env.tempDirExists,
            slidesRendered := (renderSlides env 0 manifest).1, stitchAttempted := true,
            uploads := [], scratchRemoved := false, queueAfter := lessonId :: queue }
      else
        { statusWrites := [.processing, .failed], staleCleared := env.tempDirExists,
          slidesRendered := (renderSlides env 0 manifest).1, stitchAttempted := false,
          uploads := [], scratchRemoved := false,
          queueAfter := (lessonId :: queue).erase lessonId }

/-! ## Podcast pipeline (`SlidesService.createPodcast`) -/

/-- Environment of one `createPodcast` run. -/
structure PodcastEnv where
  /-- Whether `temp/pod_<lessonId>` already exists when the run starts. -/
  tempDirExists : Bool
  /-- Text part of the dialogue-script response; an absent text part falls
  back to the empty transcript and is not an error. -/
  transcriptText : Option String
  /-- Inline multi-speaker audio payload (`none` = missing). -/
  audioB64 : Option String
  /-- Whether the PCM-to-MP3 ffmpeg conversion succeeds. -/
  convertOk : Bool
  /-- Result of the object-store upload. -/
  upload : UploadOutcome

/-- Trace of one `createPodcast` call. -/
structure PodcastRun where
  /-- Writes to `podcast_status`, in order. -/
  statusWrites : List Status
  /-- Whether a pre-existing scratch directory was removed on acquire. -/
  staleCleared : Bool
  /-- Results of the object-store uploads that were issued. -/
  uploads : List UploadOutcome
  /-- Whether the scratch directory was removed by the end of the run. -/
  scratchRemoved : Bool
deriving DecidableEq

/-- Model of `SlidesService.createPodcast`.  There is no dedup check and no
interaction with the in-memory set.  The scratch directory is created only
when absent (a pre-existing one is reused, never cleared).  A missing audio
payload or a failed conversion reaches the `catch`, which writes `failed`
and performs no cleanup; on success the upload result is discarded, `ready`
is written and the scratch directory is removed. -/
def createPodcast (env : PodcastEnv) (lessonId : String) : PodcastRun :=
  match env.audioB64 with
  | none =>
    { statusWrites := [.processing, .failed], staleCleared := false,
      uploads := [], scratchRemoved := false }
  | some _ =>
    if env.convertOk then
      { statusWrites := [.processing, .ready], staleCleared := false,
        uploads := [env.upload], scratchRemoved := true }
    else
      { statusWrites := [.processing, .failed], staleCleared := false,
        uploads := [], scratchRemoved := false }

/-! ## Comic pipeline (`SlidesService.createComic`) -/

/-- One storyboard page of the comic manifest. -/
structure ComicPage where
  page : Nat
  panel_desc : String
  caption : String
deriving DecidableEq

/-- The comic storyboard manifest.  `pages` is an `Option` because a parsed
JSON object (such as the `"{}"` fallback) may lack the field, in which case
iterating it throws. -/
structure ComicBoard where
  thematic_era : String
  style_guide : String
  visual_anchors : String
  pages : Option (List ComicPage)
deriving DecidableEq

/-- The string handed to `JSON.parse` for the comic storyboard: fences
stripped and trimmed, with the `|| '{}'` fallback. -/
def boardSource (respText : Option String) : String :=
  match respText with
  | none => "{}"
  | some t => let s := jsTrim (stripFences t); if s = "" then "{}" else s

/-- Environment of one `createComic` run. -/
structure ComicEnv where
  /-- Whether `temp/comic_<lessonId>` already exists when the run starts. -/
  tempDirExists : Bool
  /-- Text part of the storyboard response (`none` = absent). -/
  boardText : Option String
  /-- `JSON.parse` on the storyboard source string; `none` = parse throws. -/
  parseBoard : String → Option ComicBoard
  /-- Inline image payload for the page at position `j` (`none` = missing). -/
  imgData : Nat → Option String
  /-- Result of the per-page object-store upload at position `j`. -/
  upload : Nat → UploadOutcome

/-- Trace of one `createComic` call. -/
structure ComicRun where
  /-- Writes to `comic_status`, in order. -/
  statusWrites : List Status
  /-- Whether a pre-existing scratch directory was removed on acquire. -/
  staleCleared : Bool
  /-- Number of artist image-generation calls issued. -/
  artistCalls : Nat
  /-- Number of per-page uploads issued. -/
  uploads : Nat
  /-- Whether the scratch directory was removed by the end of the run. -/
  scratchRemoved : Bool
deriving DecidableEq

/-- The artist loop over the storyboard pages: returns the number of artist
calls and uploads issued, and whether the loop completed.  A missing image
payload throws after its artist call. -/
def comicLoop (env : ComicEnv) : Nat → List ComicPage → Nat × Nat × Bool
  | _, [] => (0, 0, true)
  | j, _ :: rest =>
    match env.imgData j with
    | none => (1, 0, false)
    | some _ =>
      let out := comicLoop env (j + 1) rest
      (out.1 + 1, out.2.1 + 1, out.2.2)

/-- Model of `SlidesService.createComic`.  No dedup check; the scratch
directory is created only when absent.  A storyboard parse failure, an
absent `pages` field, or a missing page image reaches the `catch`, which
writes `failed` and removes the scratch directory; on success `ready` is
written and the scratch directory is removed. -/
def createComic (env : ComicEnv) (lessonId : String) : ComicRun :=
  match env.parseBoard (boardSource env.boardText) with
  | none =>
    { statusWrites := [.processing, .failed], staleCleared := false,
      artistCalls := 0, uploads := 0, scratchRemoved := true }
  | some board =>
    match board.pages with
    | none =>
      { statusWrites := [.processing, .failed], staleCleared := false,
        artistCalls := 0, uploads := 0, scratchRemoved := true }
    | some pages =>
      if (comicLoop env 0 pages).2.2 then
        { statusWrites := [.processing, .ready], staleCleared := false,
          artistCalls := (comicLoop env 0 pages).1,
          uploads := (comicLoop env 0 pages).2.1, scratchRemoved := true }
      else
        { statusWrites := [.processing, .failed], staleCleared := false,
          artistCalls := (comicLoop env 0 pages).1,
          uploads := (comicLoop env 0 pages).2.1, scratchRemoved := true }

/-! ## Cinematic pipeline (`VideoService.produceCinematicExplainer`) -/

/-- The visual-identity record parsed in stage 1. -/
structure VisualId where
  protagonist_description : String
  location_description : String
  art_style : String
deriving DecidableEq

/-- One scene of the cinematic script. -/
structure Scene where
  scene : Nat
  action_prompt : String
  dialogue_sfx : String
deriving DecidableEq

/-- The string handed to `JSON.parse` for the identity and script stages:
fences stripped and trimmed; a falsy result makes the stage throw, so it is
`none` here. -/
def fencedSource (respText : Option String) : Option String :=
  match respText with
  | none => none
  | some t => let s := jsTrim (stripFences t); if s = "" then none else some s

/-- The local file name a downloaded scene clip is saved under
(`scene_<i+1>.mp4` inside the job scratch directory). -/
def sceneClip (i : Nat) : String := "scene_" ++ toString (i + 1) ++ ".mp4"

/-- One line of the concat list file: `file 'name'`. -/
def concatLine (n : String) : String := "file " ++ sq ++ n ++ sq

/-- The content written to `clips.txt`: one `file 'name'` line per clip,
in order. -/
def clipsManifest (names : List String) : String :=
  String.intercalate "\n" (names.map concatLine)

/-- Environment of one `produceCinematicExplainer` run. -/
structure CineEnv where
  /-- Whether `temp/veo_<lessonId>` already exists when the run starts. -/
  tempDirExists : Bool
  /-- Text part of the visual-identity response (`none` = absent). -/
  idText : Option String
  /-- `JSON.parse` for the visual identity; `none` = parse throws. -/
  parseId : String → Option VisualId
  /-- Inline payload of the character reference grid (`none` = missing). -/
  charGridB64 : Option String
  /-- Text part of the scene-script response (`none` = absent). -/
  scriptText : Option String
  /-- `JSON.parse` for the scene script; `none` = parse throws. -/
  parseScript : String → Option (List Scene)
  /-- Inline thumbnail payload for scene `i` (`none` = missing). -/
  thumbB64 : Nat → Option String
  /-- Whether the video operation for scene `i` reports `done` when fetched
  for the `k`-th time (`k = 0` is the handle returned by submission). -/
  opDone : Nat → Nat → Bool
  /-- Whether `operation.response.generatedVideos[0]` is present for scene
  `i` once the operation is done. -/
  genVideoPresent : Nat → Bool
  /-- Whether the generated clip of scene `i` carries a video file. -/
  videoFilePresent : Nat → Bool
  /-- Whether the concat ffmpeg invocation succeeds. -/
  stitchOk : Bool
  /-- Result of the final object-store upload. -/
  upload : UploadOutcome

/-- Trace of one `produceCinematicExplainer` call. -/
structure CineRun where
  /-- Writes to `animated_video_status`, in order. -/
  statusWrites : List Status
  /-- Whether a pre-existing scratch directory was removed on acquire. -/
  staleCleared : Bool
  /-- Number of character-grid generation calls issued. -/
  charGridCalls : Nat
  /-- Number of per-scene thumbnail generation calls issued. -/
  thumbCalls : Nat
  /-- Number of video-generation operation submissions issued. -/
  genVideoSubmissions : Nat
  /-- Number of re-fetches each completed poll loop performed, per scene. -/
  pollRefetches : List Nat
  /-- Local file names the clips were downloaded to, in order. -/
  downloads : List String
  /-- Content of `clips.txt`, when the stitch stage was reached. -/
  concatManifest : Option String
  /-- Output options of the concat invocation, when it was built. -/
  concatOutputOptions : List String
  /-- Results of the object-store uploads that were issued. -/
  uploads : List UploadOutcome
  /-- Whether the scratch directory was removed by the end of the run. -/
  scratchRemoved : Bool
  /-- `false` when the run is still blocked in a poll loop that has not
  observed `done` (the source has no timeout, so the job never settles). -/
  settled : Bool
  /-- Whether the `catch` re-threw the error after the `failed` write. -/
  rethrown : Bool
deriving DecidableEq

/-- The polling loop of the video stage: re-fetch the operation until it
reports done, waiting a fixed 10000 ms before each re-fetch.  `k` is the
index of the fetch under inspection; the result is the number of re-fetches
performed and the total milliseconds waited, or `none` when `done` was not
observed within `fuel` re-fetches (the source loops forever in that case). -/
def pollVideosOperation (done : Nat → Bool) : Nat → Nat → Option (Nat × Nat)
  | k, 0 => if done k then some (0, 0) else none
  | k, fuel + 1 =>
    if done k then some (0, 0)
    else
      match pollVideosOperation done (k + 1) fuel with
      | some (r, w) => some (r + 1, w + 10000)
      | none => none

/-- Progress marker of the per-scene loop. -/
inductive LoopStatus where
  | ok
  | failed
  | blocked
deriving DecidableEq

/-- Trace of the per-scene generation loop. -/
structure SceneLoopOut where
  /-- Thumbnail generation calls issued. -/
  thumbCalls : Nat
  /-- Video operation submissions issued. -/
  subs : Nat
  /-- Re-fetch counts of the completed poll loops, in scene order. -/
  polls : List Nat
  /-- Download file names, in scene order. -/
  downloads : List String
  /-- Whether the loop completed, threw, or blocked in polling. -/
  status : LoopStatus
deriving DecidableEq

/-- The independent scene-generation loop: per scene, generate a thumbnail
(missing payload throws), submit the video operation, poll it to completion
(no timeout: insufficient fuel means the loop never settles), check the
response carries a video, and download it to `scene_<i+1>.mp4`. -/
def sceneLoop (env : CineEnv) (fuel : Nat) : Nat → List Scene → SceneLoopOut
  | _, [] => { thumbCalls := 0, subs := 0, polls := [], downloads := [], status := .ok }
  | i, _ :: rest =>
    match env.thumbB64 i with
    | none => { thumbCalls := 1, subs := 0, polls := [], downloads := [], status := .failed }
    | some _ =>
      match pollVideosOperation (env.opDone i) 0 fuel with
      | none =>
        { thumbCalls := 1, subs := 1, polls := [], downloads := [], status := .blocked }
      | some (r, _) =>
        if env.genVideoPresent i then
          if env.videoFilePresent i then
            let out := sceneLoop env fuel (i + 1) rest
            { thumbCalls := out.thumbCalls + 1, subs := out.subs + 1,
              polls := r :: out.polls, downloads := sceneClip i :: out.downloads,
              status := out.status }
          else
            { thumbCalls := 1, subs := 1, polls := [r], downloads := [], status := .failed }
        else
          { thumbCalls := 1, subs := 1, polls := [r], downloads := [], status := .failed }

/-- A failed cinematic run: the `catch` writes `failed`, removes the
scratch directory and re-throws. -/
def cineFailRun (grid thumbs subs : Nat) (polls : List Nat) (dls : List String) : CineRun :=
  { statusWrites := [.processing, .failed], staleCleared := false,
    charGridCalls := grid, thumbCalls := thumbs, genVideoSubmissions := subs,
    pollRefetches := polls, downloads := dls, concatManifest := none,
    concatOutputOptions := [], uploads := [], scratchRemoved := true,
    settled := true, rethrown := true }

/-- The continuation of the cinematic run after the scene loop: stitch the
clips with a concat list file and stream copy (`-c copy`, no re-encode),
then upload (result discarded) and write `ready`; a stitch error rejects
the awaited promise and reaches the `catch`. -/
def cineAfterLoop (env : CineEnv) (out : SceneLoopOut) : CineRun :=
  match out.status with
  | .failed => cineFailRun 1 out.thumbCalls out.subs out.polls out.downloads
  | .blocked =>
    { statusWrites := [.processing], staleCleared := false, charGridCalls := 1,
      thumbCalls := out.thumbCalls, genVideoSubmissions := out.subs,
      pollRefetches := out.polls, downloads := out.downloads,
      concatManifest := none, concatOutputOptions := [], uploads := [],
      scratchRemoved := false, settled := false, rethrown := false }
  | .ok =>
    if env.stitchOk then
      { statusWrites := [.processing, .ready], staleCleared := false,
        charGridCalls := 1, thumbCalls := out.thumbCalls,
        genVideoSubmissions := out.subs, pollRefetches := out.polls,
        downloads := out.downloads,
        concatManifest := some (clipsManifest out.downloads),
        concatOutputOptions := ["-c copy"], uploads := [env.upload],
        scratchRemoved := true, settled := true, rethrown := false }
    else
      { statusWrites := [.processing, .failed], staleCleared := false,
        charGridCalls := 1, thumbCalls := out.thumbCalls,
        genVideoSubmissions := out.subs, pollRefetches := out.polls,
        downloads := out.downloads,
        concatManifest := some (clipsManifest out.downloads),
        concatOutputOptions := ["-c copy"], uploads := [],
        scratchRemoved := true, settled := true, rethrown := true }

/-- Model of `VideoService.produceCinematicExplainer`.  No dedup check; the
scratch directory is created only when absent.  The visual-identity and
script stages throw on an absent/empty text part or a parse failure;
the character-grid stage throws on a missing payload; all throws reach the
`catch`, which writes `failed`, removes the scratch directory and
re-throws. -/
def produceCinematicExplainer (env : CineEnv) (lessonId : String) (fuel : Nat) : CineRun :=
  match fencedSource env.idText with
  | none => cineFailRun 0 0 0 [] []
  | some s =>
    match env.parseId s with
    | none => cineFailRun 0 0 0 [] []
    | some _ =>
      match env.charGridB64 with
      | none => cineFailRun 1 0 0 [] []
      | some _ =>
        match fencedSource env.scriptText with
        | none => cineFailRun 1 0 0 [] []
        | some u =>
          match env.parseScript u with
          | none => cineFailRun 1 0 0 [] []
          | some script => cineAfterLoop env (sceneLoop env fuel 0 script)

/-! ## Concrete test environments

Used by the closed counterexamples and the witnesses: each fixes every
external-call outcome of one run. -/

/-- A sample slide manifest entry. -/
def slideW : Slide :=
  { title := "Photosynthesis", bullets := ["Light energy", "Chlorophyll"],
    image_prompt := "a leaf", narration := "plants eat light" }

/-- A sample visual identity. -/
def vidW : VisualId :=
  { protagonist_description := "a tall explorer",
    location_description := "a savannah", art_style := "3D Animation" }

/-- A sample four-scene script. -/
def scenesW : List Scene :=
  [{ scene := 1, action_prompt := "opening", dialogue_sfx := "hello" },
   { scene := 2, action_prompt := "middle", dialogue_sfx := "steps" },
   { scene := 3, action_prompt := "turn", dialogue_sfx := "gasp" },
   { scene := 4, action_prompt := "ending", dialogue_sfx := "bye" }]

/-- A podcast run in which every external call succeeds. -/
def podEnvOk : PodcastEnv :=
  { tempDirExists := false, transcriptText := some "Alex: hi",
    audioB64 := some "UklGR", convertOk := true, upload := .ok }

/-- A podcast run whose multi-speaker audio payload is missing. -/
def podEnvNoAudio : PodcastEnv :=
  { tempDirExists := false, transcriptText := some "Alex: hi",
    audioB64 := none, convertOk := true, upload := .ok }

/-- A podcast run starting with a stale scratch directory on disk. -/
def podEnvPre : PodcastEnv :=
  { tempDirExists := true, transcriptText := some "Alex: hi",
    audioB64 := some "UklGR", convertOk := true, upload := .ok }

/-- A comic run starting with a stale scratch directory on disk. -/
def comicEnvPre : ComicEnv :=
  { tempDirExists := true, boardText := some "x",
    parseBoard := fun _ => none, imgData := fun _ => none,
    upload := fun _ => .ok }

/-- A comic run whose storyboard response is not valid JSON. -/
def comicEnvBadJson : ComicEnv :=
  { tempDirExists := false, boardText := some "not json at all",
    parseBoard := fun _ => none, imgData := fun _ => some "img",
    upload := fun _ => .ok }

/-- A slideshow run in which every call succeeds except the final upload,
which resolves with an error result. -/
def slidesEnvUploadErr : SlidesEnv :=
  { fsExists := fun _ => false, tempDirExists := false,
    scriptText := some "ok",
    parseManifest := fun s => if s = "ok" then some [slideW] else none,
    imgB64 := fun _ => some "iVBOR", audioB64 := fun _ => some "UklGR",
    audioConvertOk := fun _ => true, renderOk := fun _ => true,
    stitchOk := true, upload := .err }

/-- A slideshow run whose final stitch invocation fails. -/
def slidesEnvStitchFail : SlidesEnv :=
  { fsExists := fun _ => false, tempDirExists := false,
    scriptText := some "ok",
    parseManifest := fun s => if s = "ok" then some [slideW] else none,
    imgB64 := fun _ => some "iVBOR", audioB64 := fun _ => some "UklGR",
    audioConvertOk := fun _ => true, renderOk := fun _ => true,
    stitchOk := false, upload := .ok }

/-- A slideshow run whose manifest response is not valid JSON. -/
def slidesEnvBadJson : SlidesEnv :=
  { fsExists := fun _ => false, tempDirExists := false,
    scriptText := some "not json at all",
    parseManifest := fun _ => none,
    imgB64 := fun _ => some "iVBOR", audioB64 := fun _ => some "UklGR",
    audioConvertOk := fun _ => true, renderOk := fun _ => true,
    stitchOk := true, upload := .ok }

/-- A slideshow run whose manifest response has no text part at all. -/
def slidesEnvNoText : SlidesEnv :=
  { fsExists := fun _ => false, tempDirExists := false,
    scriptText := none,
    parseManifest := fun s => if s = "[]" then some [] else none,
    imgB64 := fun _ => some "iVBOR", audioB64 := fun _ => some "UklGR",
    audioConvertOk := fun _ => true, renderOk := fun _ => true,
    stitchOk := true, upload := .ok }

/-- A cinematic run in which every call succeeds: the script has four
scenes and each video operation reports done on its first re-fetch. -/
def cine4Env : CineEnv :=
  { tempDirExists := false, idText := some "idjson",
    parseId := fun t => if t = "idjson" then some vidW else none,
    charGridB64 := some "grid", scriptText := some "scriptjson",
    parseScript := fun t => if t = "scriptjson" then some scenesW else none,
    thumbB64 := fun _ => some "thumb",
    opDone := fun _ k => decide (0 < k),
    genVideoPresent := fun _ => true, videoFilePresent := fun _ => true,
    stitchOk := true, upload := .ok }

/-- A cinematic run in which everything succeeds except the final upload,
which resolves with an error result. -/
def cineEnvUploadErr : CineEnv :=
  { tempDirExists := false, idText := some "idjson",
    parseId := fun t => if t = "idjson" then some vidW else none,
    charGridB64 := some "grid", scriptText := some "scriptjson",
    parseScript := fun t => if t = "scriptjson" then some scenesW else none,
    thumbB64 := fun _ => some "thumb",
    opDone := fun _ _ => true,
    genVideoPresent := fun _ => true, videoFilePresent := fun _ => true,
    stitchOk := true, upload := .err }

/-- A cinematic run whose visual-identity response is not valid JSON. -/
def cineEnvBadId : CineEnv :=
  { tempDirExists := false, idText := some "not json",
    parseId := fun _ => none,
    charGridB64 := some "grid", scriptText := some "scriptjson",
    parseScript := fun t => if t = "scriptjson" then some scenesW else none,
    thumbB64 := fun _ => some "thumb",
    opDone := fun _ _ => true,
    genVideoPresent := fun _ => true, videoFilePresent := fun _ => true,
    stitchOk := true, upload := .ok }

/-- A cinematic run whose scene-script response is not valid JSON. -/
def cineEnvBadScript : CineEnv :=
  { tempDirExists := false, idText := some "idjson",
    parseId := fun t => if t = "idjson" then some vidW else none,
    charGridB64 := some "grid", scriptText := some "not json",
    parseScript := fun _ => none,
    thumbB64 := fun _ => some "thumb",
    opDone := fun _ _ => true,
    genVideoPresent := fun _ => true, videoFilePresent := fun _ => true,
    stitchOk := true, upload := .ok }

/-- A cinematic run starting with a stale scratch directory on disk. -/
def cineEnvPre : CineEnv :=
  { cine4Env with tempDirExists := true }

/-- An operation that first reports done on its second re-fetch. -/
def doneAtTwo (k : Nat) : Bool := k == 2

/-! ## Helper lemmas -/

/-- Sanitized characters are always in the safe class. -/
theorem cleanChar_safe (c : Char) : safeChar (cleanChar c) = true := by
  unfold cleanChar
  split
  · assumption
  · decide

/-- A filter-breaking character is never in the safe class. -/
theorem break_not_safe (c : Char) (hb : filterBreaking c = true) : safeChar c = false := by
  unfold filterBreaking at hb
  rcases Bool.or_eq_true_iff.mp hb with h4 | h
  · rcases Bool.or_eq_true_iff.mp h4 with h3 | h
    · rcases Bool.or_eq_true_iff.mp h3 with h2 | h
      · rcases Bool.or_eq_true_iff.mp h2 with h | h
        · rw [eq_of_beq h]; decide
        · rw [eq_of_beq h]; decide
      · rw [eq_of_beq h]; decide
    · rw [eq_of_beq h]; decide
  · rw [eq_of_beq h]; decide

/-- A safe character never breaks the filter graph. -/
theorem safe_no_break (c : Char) (h : safeChar c = true) : filterBreaking c = false := by
  cases hf : filterBreaking c with
  | false => rfl
  | true => rw [break_not_safe c hf] at h; exact Bool.noConfusion h

/-- Exact behaviour of the poll loop: when the operation first reports done
on fetch `k + n` and the fuel covers `n` re-fetches, the loop performs
exactly `n` re-fetches and waits `10000 * n` milliseconds in total. -/
theorem pollVideosOperation_exact (done : Nat → Bool) :
    ∀ (n fuel k : Nat), (∀ j, j < n → done (k + j) = false) → done (k + n) = true →
      n ≤ fuel → pollVideosOperation done k fuel = some (n, 10000 * n) := by
  intro n
  induction n with
  | zero =>
    intro fuel k _ hd _
    rw [Nat.add_zero] at hd
    cases fuel with
    | zero => simp [pollVideosOperation, hd]
    | succ f => simp [pollVideosOperation, hd]
  | succ n ih =>
    intro fuel k hlt hd hle
    have h0 : done k = false := by
      have := hlt 0 (Nat.succ_pos n)
      simpa using this
    cases fuel with
    | zero => omega
    | succ f =>
      have hrec := ih f (k + 1)
        (fun j hj => by
          have := hlt (j + 1) (by omega)
          have hkj : k + 1 + j = k + (j + 1) := by omega
          rw [hkj]; exact this)
        (by
          have hkn : k + 1 + n = k + (n + 1) := by omega
          rw [hkn]; exact hd)
        (by omega)
      simp [pollVideosOperation, h0, hrec, Nat.mul_succ]

/-- A never-completing operation keeps the loop polling forever: no amount
of fuel makes it settle (the source loop has no timeout). -/
theorem pollVideosOperation_never (done : Nat → Bool) (h : ∀ k, done k = false) :
    ∀ (fuel k : Nat), pollVideosOperation done k fuel = none := by
  intro fuel
  induction fuel with
  | zero => intro k; simp [pollVideosOperation, h]
  | succ f ih => intro k; simp [pollVideosOperation, h, ih]

/-- The poll loop only returns once the operation reports done at the fetch
it stopped on. -/
theorem pollVideosOperation_done (done : Nat → Bool) :
    ∀ (fuel k r w : Nat),
      pollVideosOperation done k fuel = some (r, w) → done (k + r) = true := by
  intro fuel
  induction fuel with
  | zero =>
    intro k r w h
    unfold pollVideosOperation at h
    cases hd : done k with
    | false => rw [hd] at h; simp at h
    | true =>
      rw [hd] at h
      simp [Prod.ext_iff] at h
      obtain ⟨h1, _⟩ := h
      have hr : r = 0 := by omega
      subst hr
      simpa using hd
  | succ f ih =>
    intro k r w h
    unfold pollVideosOperation at h
    cases hd : done k with
    | true =>
      rw [hd] at h
      simp [Prod.ext_iff] at h
      obtain ⟨h1, _⟩ := h
      have hr : r = 0 := by omega
      subst hr
      simpa using hd
    | false =>
      rw [hd] at h
      simp at h
      cases hp : pollVideosOperation done (k + 1) f with
      | none => rw [hp] at h; simp at h
      | some p =>
        obtain ⟨r0, w0⟩ := p
        rw [hp] at h
        simp [Prod.ext_iff] at h
        obtain ⟨h1, _⟩ := h
        have hr : r = r0 + 1 := by omega
        subst hr
        have hkr : k + (r0 + 1) = k + 1 + r0 := by omega
        rw [hkr]
        exact ih (k + 1) r0 w0 hp

/-- Shape of a completed scene loop: one thumbnail call, one operation
submission and one download per scene, downloads named `scene_<i+1>.mp4` in
scene order, and every recorded poll count is a fetch index at which the
operation reported done. -/
theorem sceneLoop_spec (env : CineEnv) (fuel : Nat) :
    ∀ (scenes : List Scene) (i : Nat),
      (sceneLoop env fuel i scenes).status = LoopStatus.ok →
      (sceneLoop env fuel i scenes).downloads
          = (List.range scenes.length).map (fun j => sceneClip (i + j))
        ∧ (sceneLoop env fuel i scenes).subs = scenes.length
        ∧ (sceneLoop env fuel i scenes).thumbCalls = scenes.length
        ∧ (sceneLoop env fuel i scenes).polls.length = scenes.length
        ∧ ∀ j, j < scenes.length →
            env.opDone (i + j) ((sceneLoop env fuel i scenes).polls.getD j 0) = true := by
  intro scenes
  induction scenes with
  | nil =>
    intro i _
    simp [sceneLoop]
  | cons sc rest ih =>
    intro i hok
    cases hth : env.thumbB64 i with
    | none => simp [sceneLoop, hth] at hok
    | some th =>
      cases hp : pollVideosOperation (env.opDone i) 0 fuel with
      | none => simp [sceneLoop, hth, hp] at hok
      | some p =>
        obtain ⟨r, w⟩ := p
        cases hg : env.genVideoPresent i with
        | false => simp [sceneLoop, hth, hp, hg] at hok
        | true =>
          cases hv : env.videoFilePresent i with
          | false => simp [sceneLoop, hth, hp, hg, hv] at hok
          | true =>
            have hstep : sceneLoop env fuel i (sc :: rest) =
                { thumbCalls := (sceneLoop env fuel (i + 1) rest).thumbCalls + 1,
                  subs := (sceneLoop env fuel (i + 1) rest).subs + 1,
                  polls := r :: (sceneLoop env fuel (i + 1) rest).polls,
                  downloads := sceneClip i :: (sceneLoop env fuel (i + 1) rest).downloads,
                  status := (sceneLoop env fuel (i + 1) rest).status } := by
              simp [sceneLoop, hth, hp, hg, hv]
            rw [hstep] at hok
            have hok2 : (sceneLoop env fuel (i + 1) rest).status = LoopStatus.ok := hok
            obtain ⟨ih1, ih2, ih3, ih4, ih5⟩ := ih (i + 1) hok2
            have hfun : (fun j : Nat => sceneClip (i + 1 + j))
                = fun j : Nat => sceneClip (i + (j + 1)) := by
              funext j
              congr 1
              omega
            rw [hstep]
            refine ⟨?_, ?_, ?_, ?_, ?_⟩
            · simp only [List.length_cons, List.range_succ_eq_map, List.map_cons,
                List.map_map]
              rw [ih1, hfun]
              simp [Function.comp]
            · simp [ih2]
            · simp [ih3]
            · simp [ih4]
            · intro j hj
              cases j with
              | zero =>
                have hd := pollVideosOperation_done (env.opDone i) fuel 0 r w hp
                simpa using hd
              | succ j0 =>
                have hj0 : j0 < rest.length := by simpa using Nat.lt_of_succ_lt_succ hj
                have := ih5 j0 hj0
                have hidx : i + (j0 + 1) = i + 1 + j0 := by omega
                rw [hidx]
                simpa using this

/-! ## Claims -/

/-- C1, counterexample: the claim asserts the dedup no-op for every job
kind, but `createPodcast` never consults the in-memory set — its behaviour
cannot depend on a first run still being in flight — so a second `run` call
issued while the first is still processing performs its own status writes
and its own upload (here: a `processing` and a `ready` write and one
upload) instead of being a no-op. -/
theorem claim_C1_counterexample :
    (createPodcast podEnvOk "lesson-1").statusWrites = [.processing, .ready]
      ∧ (createPodcast podEnvOk "lesson-1").uploads = [.ok] := by
  decide

/-- C1, amended: only the slideshow pipeline performs the atomic in-memory
membership check — a `createVideo` call whose identity is already in the
set performs no status writes and no uploads and leaves the set unchanged;
the dialogue-audio, illustrated-story and cinematic-video pipelines perform
no dedup check, so every call (including a second concurrent one for the
same identity) issues its own `processing` status write. -/
theorem claim_C1 :
    (∀ (env : SlidesEnv) (l : String) (q : List String), l ∈ q →
        (createVideo env l q).statusWrites = []
          ∧ (createVideo env l q).uploads = []
          ∧ (createVideo env l q).queueAfter = q)
      ∧ (∀ (env : PodcastEnv) (l : String),
          (createPodcast env l).statusWrites.head? = some .processing)
      ∧ (∀ (env : ComicEnv) (l : String),
          (createComic env l).statusWrites.head? = some .processing)
      ∧ (∀ (env : CineEnv) (l : String) (fuel : Nat),
          (produceCinematicExplainer env l fuel).statusWrites.head?
            = some .processing) := by
  refine ⟨?_, ?_, ?_, ?_⟩
  · intro env l q hq
    simp [createVideo, hq]
  · intro env l
    unfold createPodcast
    split
    · rfl
    · split <;> rfl
  · intro env l
    unfold createComic
    split
    · rfl
    · split
      · rfl
      · split <;> rfl
  · intro env l fuel
    unfold produceCinematicExplainer cineAfterLoop cineFailRun
    repeat' split
    all_goals rfl

/-- C1, witness: the amended statement at concrete inputs — a slideshow
call with its identity already in the set, and one call of each unguarded
pipeline. -/
theorem claim_C1_witness :
    ("lesson-1" ∈ ["lesson-1"])
      ∧ (createVideo slidesEnvUploadErr "lesson-1" ["lesson-1"]).statusWrites = []
      ∧ (createPodcast podEnvOk "lesson-1").statusWrites.head? = some .processing
      ∧ (createComic comicEnvBadJson "lesson-1").statusWrites.head? = some .processing
      ∧ (produceCinematicExplainer cineEnvBadId "lesson-1" 1).statusWrites.head?
          = some .processing := by
  refine ⟨by decide, ?_, ?_, ?_, ?_⟩
  · exact (claim_C1.1 slidesEnvUploadErr "lesson-1" ["lesson-1"] (by decide)).1
  · exact claim_C1.2.1 podEnvOk "lesson-1"
  · exact claim_C1.2.2.1 comicEnvBadJson "lesson-1"
  · exact claim_C1.2.2.2 cineEnvBadId "lesson-1" 1

/-- C2: evaluating the code at the failing input.  When the final
object-store upload resolves with an error result — which the source
discards without inspection — both the cinematic and the slideshow
pipelines still write `ready`: an upload failure is followed by a `ready`
status write. -/
theorem claim_C2 :
    (produceCinematicExplainer cineEnvUploadErr "L1" 1).uploads = [.err]
      ∧ (produceCinematicExplainer cineEnvUploadErr "L1" 1).statusWrites
          = [.processing, .ready]
      ∧ (createVideo slidesEnvUploadErr "L2" []).uploads = [.err]
      ∧ (createVideo slidesEnvUploadErr "L2" []).statusWrites
          = [.processing, .ready] := by
  decide

/-- C3: evaluating the code at the failing input.  A slideshow run whose
stitch invocation fails settles with no `failed` status write and with the
dedup marker still present: the stitch error is thrown inside an ffmpeg
event callback and never reaches the `catch` that performs the `failed`
write and the marker removal. -/
theorem claim_C3 :
    (createVideo slidesEnvStitchFail "L1" []).statusWrites = [Status.processing]
      ∧ (createVideo slidesEnvStitchFail "L1" []).queueAfter = ["L1"] := by
  decide

/-- C4, counterexample: a failed podcast run does not remove its scratch
directory, and no retain-for-debugging mode is involved — the podcast
`catch` simply performs no cleanup. -/
theorem claim_C4_counterexample :
    (createPodcast podEnvNoAudio "L1").statusWrites.getLast? = some .failed
      ∧ (createPodcast podEnvNoAudio "L1").scratchRemoved = false := by
  decide

/-- C4, amended: the comic and cinematic pipelines remove the scratch
directory on every failed run; the slideshow pipeline never removes it on
failure (removal is deliberately disabled to keep temp files for debugging,
with no log of the skipped release), and the podcast failure path performs
no removal either. -/
theorem claim_C4 :
    (∀ (env : ComicEnv) (l : String),
        (createComic env l).statusWrites.getLast? = some .failed →
        (createComic env l).scratchRemoved = true)
      ∧ (∀ (env : CineEnv) (l : String) (fuel : Nat),
          (produceCinematicExplainer env l fuel).statusWrites.getLast? = some .failed →
          (produceCinematicExplainer env l fuel).scratchRemoved = true)
      ∧ (∀ (env : SlidesEnv) (l : String) (q : List String),
          (createVideo env l q).statusWrites.getLast? = some .failed →
          (createVideo env l q).scratchRemoved = false)
      ∧ (∀ (env : PodcastEnv) (l : String),
          (createPodcast env l).statusWrites.getLast? = some .failed →
          (createPodcast env l).scratchRemoved = false) := by
  refine ⟨?_, ?_, ?_, ?_⟩
  · intro env l
    unfold createComic
    repeat' split
    all_goals intro h
    all_goals first
      | rfl
      | simp at h
  · intro env l fuel
    unfold produceCinematicExplainer cineAfterLoop cineFailRun
    repeat' split
    all_goals intro h
    all_goals first
      | rfl
      | simp at h
  · intro env l q
    unfold createVideo
    repeat' split
    all_goals intro h
    all_goals first
      | rfl
      | simp at h
  · intro env l
    unfold createPodcast
    repeat' split
    all_goals intro h
    all_goals first
      | rfl
      | simp at h

/-- C4, witness: the amended statement at concrete failing runs of each
pipeline. -/
theorem claim_C4_witness :
    (createComic comicEnvBadJson "w4").statusWrites.getLast? = some .failed
      ∧ (createComic comicEnvBadJson "w4").scratchRemoved = true
      ∧ (produceCinematicExplainer cineEnvBadScript "w4" 1).statusWrites.getLast?
          = some .failed
      ∧ (produceCinematicExplainer cineEnvBadScript "w4" 1).scratchRemoved = true
      ∧ (createVideo slidesEnvBadJson "w4" []).statusWrites.getLast? = some .failed
      ∧ (createVideo slidesEnvBadJson "w4" []).scratchRemoved = false
      ∧ (createPodcast podEnvNoAudio "w4").statusWrites.getLast? = some .failed
      ∧ (createPodcast podEnvNoAudio "w4").scratchRemoved = false := by
  refine ⟨by decide, ?_, by decide, ?_, by decide, ?_, by decide, ?_⟩
  · exact claim_C4.1 comicEnvBadJson "w4" (by decide)
  · exact claim_C4.2.1 cineEnvBadScript "w4" 1 (by decide)
  · exact claim_C4.2.2.1 slidesEnvBadJson "w4" [] (by decide)
  · exact claim_C4.2.2.2 podEnvNoAudio "w4" (by decide)

/-- C5, counterexample: three of the four pipelines reuse a pre-existing
scratch directory instead of clearing it first — with `temp/…` already on
disk, the podcast, comic and cinematic acquisitions leave the stale
directory (and its contents) in place. -/
theorem claim_C5_counterexample :
    podEnvPre.tempDirExists = true
      ∧ (createPodcast podEnvPre "L1").staleCleared = false
      ∧ comicEnvPre.tempDirExists = true
      ∧ (createComic comicEnvPre "L1").staleCleared = false
      ∧ cineEnvPre.tempDirExists = true
      ∧ (produceCinematicExplainer cineEnvPre "L1" 2).staleCleared = false := by
  decide

/-- C5, amended: only the slideshow pipeline removes a pre-existing scratch
directory before creating a fresh one (it clears exactly when a directory
of that name already exists); the podcast, comic and cinematic pipelines
create the directory only when absent and otherwise reuse the existing one
together with its stale contents. -/
theorem claim_C5 :
    (∀ (env : SlidesEnv) (l : String) (q : List String), l ∉ q →
        (createVideo env l q).staleCleared = env.tempDirExists)
      ∧ (∀ (env : PodcastEnv) (l : String),
          (createPodcast env l).staleCleared = false)
      ∧ (∀ (env : ComicEnv) (l : String),
          (createComic env l).staleCleared = false)
      ∧ (∀ (env : CineEnv) (l : String) (fuel : Nat),
          (produceCinematicExplainer env l fuel).staleCleared = false) := by
  refine ⟨?_, ?_, ?_, ?_⟩
  · intro env l q hq
    unfold createVideo
    rw [if_neg hq]
    repeat' split
    all_goals rfl
  · intro env l
    unfold createPodcast
    repeat' split
    all_goals rfl
  · intro env l
    unfold createComic
    repeat' split
    all_goals rfl
  · intro env l fuel
    unfold produceCinematicExplainer cineAfterLoop cineFailRun
    repeat' split
    all_goals rfl

/-- C5, witness: the amended statement at concrete inputs. -/
theorem claim_C5_witness :
    ("w5" ∉ ([] : List String))
      ∧ (createVideo slidesEnvUploadErr "w5" []).staleCleared
          = slidesEnvUploadErr.tempDirExists
      ∧ (createPodcast podEnvPre "w5").staleCleared = false := by
  refine ⟨by decide, ?_, ?_⟩
  · exact claim_C5.1 slidesEnvUploadErr "w5" [] (by decide)
  · exact claim_C5.2.1 podEnvPre "w5"

/-- C6: for each structured-generation stage — slides manifest, comic
storyboard, cinematic visual identity, cinematic scene script — a response
whose text is not valid JSON after fence stripping (the stage's
`JSON.parse` throws) makes the run settle with exactly a `processing` and a
`failed` status write and no subsequent stage attempted (no slide renders,
no stitch, no artist calls, no grid call, no thumbnails, no video
submissions, no uploads, as applicable). -/
theorem claim_C6 :
    (∀ (env : SlidesEnv) (l : String) (q : List String), l ∉ q →
        env.parseManifest (manifestSource env.scriptText) = none →
        (createVideo env l q).statusWrites = [.processing, .failed]
          ∧ (createVideo env l q).slidesRendered = 0
          ∧ (createVideo env l q).stitchAttempted = false
          ∧ (createVideo env l q).uploads = [])
      ∧ (∀ (env : ComicEnv) (l : String),
          env.parseBoard (boardSource env.boardText) = none →
          (createComic env l).statusWrites = [.processing, .failed]
            ∧ (createComic env l).artistCalls = 0
            ∧ (createComic env l).uploads = 0)
      ∧ (∀ (env : CineEnv) (l : String) (fuel : Nat) (s : String),
          fencedSource env.idText = some s → env.parseId s = none →
          (produceCinematicExplainer env l fuel).statusWrites = [.processing, .failed]
            ∧ (produceCinematicExplainer env l fuel).charGridCalls = 0
            ∧ (produceCinematicExplainer env l fuel).genVideoSubmissions = 0
            ∧ (produceCinematicExplainer env l fuel).uploads = [])
      ∧ (∀ (env : CineEnv) (l : String) (fuel : Nat) (u : String),
          fencedSource env.scriptText = some u → env.parseScript u = none →
          (produceCinematicExplainer env l fuel).statusWrites = [.processing, .failed]
            ∧ (produceCinematicExplainer env l fuel).thumbCalls = 0
            ∧ (produceCinematicExplainer env l fuel).genVideoSubmissions = 0
            ∧ (produceCinematicExplainer env l fuel).uploads = []) := by
  refine ⟨?_, ?_, ?_, ?_⟩
  · intro env l q hq hp
    unfold createVideo
    rw [if_neg hq, hp]
    exact ⟨rfl, rfl, rfl, rfl⟩
  · intro env l hp
    unfold createComic
    rw [hp]
    exact ⟨rfl, rfl, rfl⟩
  · intro env l fuel s h1 h2
    unfold produceCinematicExplainer
    rw [h1]
    dsimp only
    rw [h2]
    exact ⟨rfl, rfl, rfl, rfl⟩
  · intro env l fuel u h4 h5
    unfold produceCinematicExplainer
    cases h1 : fencedSource env.idText with
    | none => exact ⟨rfl, rfl, rfl, rfl⟩
    | some s1 =>
      dsimp only
      cases h2 : env.parseId s1 with
      | none => exact ⟨rfl, rfl, rfl, rfl⟩
      | some v =>
        dsimp only
        cases h3 : env.charGridB64 with
        | none => exact ⟨rfl, rfl, rfl, rfl⟩
        | some g =>
          dsimp only
          rw [h4]
          dsimp only
          rw [h5]
          exact ⟨rfl, rfl, rfl, rfl⟩

/-- C6, witness: each structured stage at a concrete non-JSON response. -/
theorem claim_C6_witness :
    slidesEnvBadJson.parseManifest (manifestSource slidesEnvBadJson.scriptText) = none
      ∧ (createVideo slidesEnvBadJson "w6" []).statusWrites = [.processing, .failed]
      ∧ comicEnvBadJson.parseBoard (boardSource comicEnvBadJson.boardText) = none
      ∧ (createComic comicEnvBadJson "w6").artistCalls = 0
      ∧ fencedSource cineEnvBadId.idText = some "not json"
      ∧ (produceCinematicExplainer cineEnvBadId "w6" 1).charGridCalls = 0
      ∧ fencedSource cineEnvBadScript.scriptText = some "not json"
      ∧ (produceCinematicExplainer cineEnvBadScript "w6" 1).genVideoSubmissions = 0 := by
  refine ⟨by decide, ?_, by decide, ?_, by decide, ?_, by decide, ?_⟩
  · exact (claim_C6.1 slidesEnvBadJson "w6" [] (by decide) (by decide)).1
  · exact (claim_C6.2.1 comicEnvBadJson "w6" (by decide)).2.1
  · exact (claim_C6.2.2.1 cineEnvBadId "w6" 1 "not json" (by decide) (by decide)).2.1
  · exact (claim_C6.2.2.2 cineEnvBadScript "w6" 1 "not json" (by decide) (by decide)).2.2.1

/-- C7, counterexample: the text inserted into the drawtext filter for a
bullet is not drawn from the safe alphanumeric/space set alone — the code
template prefixes the fixed bullet glyph, which is outside that set. -/
theorem claim_C7_counterexample :
    (Char.ofNat 0x2022) ∈ (bulletTextField "Cells divide").data
      ∧ safeChar (Char.ofNat 0x2022) = false := by
  decide

/-- C7, amended: every title and bullet string is sanitized to the safe
alphanumeric/space set before insertion into the drawtext filter; the
bullet payload additionally begins with the fixed bullet glyph from the
code template.  Consequently neither payload ever contains a
filter-graph-breaking character (quote, colon, bracket), so input
containing such characters cannot corrupt the constructed filter graph. -/
theorem claim_C7 (s : String) :
    (cleanText s).data.all safeChar = true
      ∧ (bulletTextField s).data.all
          (fun c => safeChar c || (c == Char.ofNat 0x2022)) = true
      ∧ (cleanText s).data.all (fun c => !(filterBreaking c)) = true
      ∧ (bulletTextField s).data.all (fun c => !(filterBreaking c)) = true := by
  have hdata : (bulletTextField s).data = '•' :: ' ' :: s.data.map cleanChar := rfl
  refine ⟨?_, ?_, ?_, ?_⟩
  · rw [List.all_eq_true]
    intro c hc
    obtain ⟨a, _, rfl⟩ := List.mem_map.mp hc
    exact cleanChar_safe a
  · rw [List.all_eq_true, hdata]
    intro c hc
    rcases List.mem_cons.mp hc with rfl | hc
    · decide
    rcases List.mem_cons.mp hc with rfl | hc
    · decide
    obtain ⟨a, _, rfl⟩ := List.mem_map.mp hc
    simp [cleanChar_safe a]
  · rw [List.all_eq_true]
    intro c hc
    obtain ⟨a, _, rfl⟩ := List.mem_map.mp hc
    simp [safe_no_break _ (cleanChar_safe a)]
  · rw [List.all_eq_true, hdata]
    intro c hc
    rcases List.mem_cons.mp hc with rfl | hc
    · decide
    rcases List.mem_cons.mp hc with rfl | hc
    · decide
    obtain ⟨a, _, rfl⟩ := List.mem_map.mp hc
    simp [safe_no_break _ (cleanChar_safe a)]

/-- C8: the video-stage polling protocol.  When the operation first reports
done on its `n`-th re-fetch and the fuel covers it, the loop performs
exactly `n` re-fetches with a fixed 10000 ms wait before each (total
`10000 * n` ms); an operation that never reports done is polled forever —
no fuel bound makes the loop settle, since the source imposes no timeout;
and a completed scene loop downloads each produced video to the
caller-specified per-scene path `scene_<i+1>.mp4`. -/
theorem claim_C8 :
    (∀ (done : Nat → Bool) (n fuel : Nat),
        (∀ k, k < n → done k = false) → done n = true → n ≤ fuel →
        pollVideosOperation done 0 fuel = some (n, 10000 * n))
      ∧ (∀ (done : Nat → Bool), (∀ k, done k = false) →
          ∀ fuel, pollVideosOperation done 0 fuel = none)
      ∧ (∀ (env : CineEnv) (fuel : Nat) (scenes : List Scene),
          (sceneLoop env fuel 0 scenes).status = LoopStatus.ok →
          (sceneLoop env fuel 0 scenes).downloads
            = (List.range scenes.length).map sceneClip) := by
  refine ⟨?_, ?_, ?_⟩
  · intro done n fuel hlt hd hle
    exact pollVideosOperation_exact done n fuel 0
      (fun j hj => by simpa using hlt j hj) (by simpa using hd) hle
  · intro done h fuel
    exact pollVideosOperation_never done h fuel 0
  · intro env fuel scenes hok
    have := (sceneLoop_spec env fuel scenes 0 hok).1
    simpa using this

/-- C8, witness: an operation done on its second re-fetch polls twice and
waits 20000 ms; a never-done operation yields no result at fuel 7; a
completed four-scene loop downloads `scene_1.mp4` … `scene_4.mp4`. -/
theorem claim_C8_witness :
    pollVideosOperation doneAtTwo 0 5 = some (2, 20000)
      ∧ pollVideosOperation (fun _ => false) 0 7 = none
      ∧ (sceneLoop cine4Env 2 0 scenesW).downloads
          = (List.range scenesW.length).map sceneClip := by
  refine ⟨?_, ?_, ?_⟩
  · have h := claim_C8.1 doneAtTwo 2 5
      (fun k hk => by
        simp only [doneAtTwo, beq_eq_false_iff_ne]
        omega)
      (by decide) (by decide)
    simpa using h
  · exact claim_C8.2.1 (fun _ => false) (fun _ => rfl) 7
  · exact claim_C8.2.2 cine4Env 2 scenesW (by decide)

/-- C9: a cinematic run whose parsed script has exactly 4 scenes issues
exactly 4 video-generation operation submissions, polls each until an
observation of done, downloads the clips as `scene_1.mp4` … `scene_4.mp4`
in scene order, and stitches them with a concat list naming the four clips
in order and the stream-copy output option (no re-encode), ending with the
`ready` write. -/
theorem claim_C9 (env : CineEnv) (l : String) (fuel : Nat) (s u : String)
    (v : VisualId) (g : String) (scenes : List Scene)
    (h1 : fencedSource env.idText = some s) (h2 : env.parseId s = some v)
    (h3 : env.charGridB64 = some g)
    (h4 : fencedSource env.scriptText = some u)
    (h5 : env.parseScript u = some scenes) (h6 : scenes.length = 4)
    (h7 : (sceneLoop env fuel 0 scenes).status = LoopStatus.ok)
    (h8 : env.stitchOk = true) :
    (produceCinematicExplainer env l fuel).genVideoSubmissions = 4
      ∧ (produceCinematicExplainer env l fuel).pollRefetches.length = 4
      ∧ (∀ j, j < 4 →
          env.opDone j
            ((produceCinematicExplainer env l fuel).pollRefetches.getD j 0) = true)
      ∧ (produceCinematicExplainer env l fuel).downloads
          = [sceneClip 0, sceneClip 1, sceneClip 2, sceneClip 3]
      ∧ (produceCinematicExplainer env l fuel).concatManifest
          = some (clipsManifest [sceneClip 0, sceneClip 1, sceneClip 2, sceneClip 3])
      ∧ (produceCinematicExplainer env l fuel).concatOutputOptions = ["-c copy"]
      ∧ (produceCinematicExplainer env l fuel).statusWrites
          = [.processing, .ready] := by
  obtain ⟨hdl, hs, ht, hplen, hpoll⟩ := sceneLoop_spec env fuel scenes 0 h7
  have hd4 : (sceneLoop env fuel 0 scenes).downloads
      = [sceneClip 0, sceneClip 1, sceneClip 2, sceneClip 3] := by
    rw [hdl, h6]
    decide
  have hrun : produceCinematicExplainer env l fuel
      = cineAfterLoop env (sceneLoop env fuel 0 scenes) := by
    unfold produceCinematicExplainer
    rw [h1]
    dsimp only
    rw [h2]
    dsimp only
    rw [h3]
    dsimp only
    rw [h4]
    dsimp only
    rw [h5]
  rw [hrun]
  unfold cineAfterLoop
  rw [h7, h8]
  refine ⟨?_, ?_, ?_, ?_, ?_, ?_, ?_⟩
  · show (sceneLoop env fuel 0 scenes).subs = 4
    rw [hs, h6]
  · show (sceneLoop env fuel 0 scenes).polls.length = 4
    rw [hplen, h6]
  · intro j hj
    have := hpoll j (by rw [h6]; exact hj)
    simpa using this
  · exact hd4
  · show some (clipsManifest (sceneLoop env fuel 0 scenes).downloads)
        = some (clipsManifest [sceneClip 0, sceneClip 1, sceneClip 2, sceneClip 3])
    rw [hd4]
  · rfl
  · rfl

/-- C9, witness: the four-scene statement at a fully successful concrete
environment. -/
theorem claim_C9_witness :
    (produceCinematicExplainer cine4Env "w9" 2).genVideoSubmissions = 4
      ∧ (produceCinematicExplainer cine4Env "w9" 2).downloads
          = [sceneClip 0, sceneClip 1, sceneClip 2, sceneClip 3]
      ∧ (produceCinematicExplainer cine4Env "w9" 2).concatOutputOptions = ["-c copy"]
      ∧ (produceCinematicExplainer cine4Env "w9" 2).statusWrites
          = [.processing, .ready] := by
  have h := claim_C9 cine4Env "w9" 2 "idjson" "scriptjson" vidW "grid" scenesW
    (by decide) (by decide) (by decide) (by decide) (by decide) (by decide)
    (by decide) (by decide)
  exact ⟨h.1, h.2.2.2.1, h.2.2.2.2.2.1, h.2.2.2.2.2.2⟩

/-- C10: when the manifest response has no text part at all, `createVideo`
substitutes the literal `"[]"`, parses it into the empty manifest, renders
zero slides and still proceeds to the stitch step — it does not fail at the
manifest-parse stage. -/
theorem claim_C10 (env : SlidesEnv) (l : String) (q : List String)
    (hq : l ∉ q) (h1 : env.scriptText = none)
    (h2 : env.parseManifest "[]" = some []) :
    manifestSource env.scriptText = "[]"
      ∧ (createVideo env l q).slidesRendered = 0
      ∧ (createVideo env l q).stitchAttempted = true
      ∧ (createVideo env l q).statusWrites.head? = some .processing := by
  have hms : manifestSource env.scriptText = "[]" := by
    rw [h1]
    rfl
  refine ⟨hms, ?_, ?_, ?_⟩
  all_goals
    unfold createVideo
    rw [if_neg hq, hms, h2]
    cases hst : env.stitchOk
  all_goals rfl

/-- C10, witness: the no-text-part statement at a concrete environment. -/
theorem claim_C10_witness :
    slidesEnvNoText.scriptText = none
      ∧ slidesEnvNoText.parseManifest "[]" = some []
      ∧ manifestSource slidesEnvNoText.scriptText = "[]"
      ∧ (createVideo slidesEnvNoText "w10" []).stitchAttempted = true := by
  have h := claim_C10 slidesEnvNoText "w10" [] (by decide) (by decide) (by decide)
  exact ⟨by decide, by decide, h.1, h.2.2.1⟩

end Seeker
